import Mathlib

/-!
Verification of the empagliflozin PBPK/PD model repository.

This file contains a shallow embedding of the declarative SBML model
construction code (intestine and kidney sub-models), the dosing-segment
sequencer of the Heise2013a study, the pharmacokinetic parameter
extractor, and the fit-mapping metadata filters, together with theorems
that settle the specification claims against these embeddings.

Rate-law formula strings of the intestine model are embedded as a small
expression AST over rational constants and named references, evaluated
against an environment assigning a rational value to every identifier.
The kidney rate laws involve real-exponent powers and are embedded as
real-valued functions.
-/

namespace Empagliflozin

/-- Symbolic rate expression over named references, mirroring the string
formulas of the SBML model construction code. -/
inductive Expr where
  | const (q : ℚ)
  | var (s : String)
  | add (a b : Expr)
  | sub (a b : Expr)
  | neg (a : Expr)
  | mul (a b : Expr)
  | div (a b : Expr)
deriving Repr, DecidableEq

/-- Evaluate a symbolic rate expression in an environment assigning values
to identifiers (parameters, compartments, species). -/
def Expr.eval (env : String → ℚ) : Expr → ℚ
  | const q => q
  | var s => env s
  | add a b => a.eval env + b.eval env
  | sub a b => a.eval env - b.eval env
  | neg a => - a.eval env
  | mul a b => a.eval env * b.eval env
  | div a b => a.eval env / b.eval env

/-- SBML compartment: named physical volume; `value = none` models an
undefined (NaN) membrane area. -/
structure Compartment where
  sid : String
  value : Option ℚ
  isConstant : Bool
deriving Repr, DecidableEq

/-- SBML species: a substance-in-compartment pair. -/
structure Species where
  sid : String
  compartment : String
  initialConcentration : ℚ
  hasOnlySubstanceUnits : Bool
  boundaryCondition : Bool := false
deriving Repr, DecidableEq

/-- SBML reaction with a single reactant, a single product and a symbolic
rate formula (all reactions of these models are of this shape). -/
structure Reaction where
  sid : String
  reactant : String
  product : String
  compartment : String
  formula : Expr
deriving Repr, DecidableEq

/-! ## Intestine model (`model_intestine.py`) -/

/-- Base compartments of the intestine model. -/
def intestine_compartments : List Compartment :=
  [ { sid := "Vext", value := some 1.0, isConstant := true }
  , { sid := "Vgu", value := some 1.2825, isConstant := true }
  , { sid := "Vlumen", value := some (1.2825 * 0.9), isConstant := false }
  , { sid := "Vfeces", value := some 1, isConstant := true }
  , { sid := "Ventero", value := some 1.0, isConstant := false }
  , { sid := "Vapical", value := none, isConstant := true }
  , { sid := "Vbaso", value := none, isConstant := true }
  , { sid := "Vstomach", value := some 1, isConstant := true }
  ]

/-- Base species of the intestine model. -/
def intestine_species : List Species :=
  [ { sid := "emp_stomach", compartment := "Vstomach", initialConcentration := 0,
      hasOnlySubstanceUnits := true, boundaryCondition := true }
  , { sid := "emp_lumen", compartment := "Vlumen", initialConcentration := 0,
      hasOnlySubstanceUnits := false }
  , { sid := "emp_feces", compartment := "Vfeces", initialConcentration := 0,
      hasOnlySubstanceUnits := true }
  , { sid := "emp_ext", compartment := "Vext", initialConcentration := 0,
      hasOnlySubstanceUnits := false }
  , { sid := "eg_lumen", compartment := "Vlumen", initialConcentration := 0,
      hasOnlySubstanceUnits := false }
  , { sid := "eg_feces", compartment := "Vfeces", initialConcentration := 0,
      hasOnlySubstanceUnits := true }
  ]

/-- Constant parameters of the intestine model (identifier, value). -/
def intestine_parameters : List (String × ℚ) :=
  [ ("F_emp_abs", 0.65)
  , ("EMPABS_k", 0.01)
  , ("METEXC_k", 0.001)
  , ("PODOSE_emp", 0)
  , ("Ka_dis_emp", 2.0)
  , ("Mr_emp", 450.909)
  ]

/-- Assignment rule `absorption = EMPABS_k * Vgu * emp_lumen`. -/
def absorption_rule : Expr :=
  Expr.mul (Expr.mul (Expr.var "EMPABS_k") (Expr.var "Vgu")) (Expr.var "emp_lumen")

/-- Reaction `EMPABS`: absorption of empagliflozin from the lumen into
plasma with rate `F_emp_abs * absorption`. -/
def EMPABS : Reaction :=
  { sid := "EMPABS", reactant := "emp_lumen", product := "emp_ext",
    compartment := "Vapical",
    formula := Expr.mul (Expr.var "F_emp_abs") (Expr.var "absorption") }

/-- Reaction `EMPEXC`: entry of empagliflozin into the fecal excretion
chain with rate `(1 - F_emp_abs) * absorption`. -/
def EMPEXC : Reaction :=
  { sid := "EMPEXC", reactant := "emp_lumen", product := "emp_intestine_0",
    compartment := "Vlumen",
    formula := Expr.mul (Expr.sub (Expr.const 1) (Expr.var "F_emp_abs"))
      (Expr.var "absorption") }

/-- Reaction `EGEXC`: entry of empagliflozin glucuronide into the fecal
excretion chain with rate `METEXC_k * Vgu * eg_lumen`. -/
def EGEXC : Reaction :=
  { sid := "EGEXC", reactant := "eg_lumen", product := "eg_intestine_0",
    compartment := "Vlumen",
    formula := Expr.mul (Expr.mul (Expr.var "METEXC_k") (Expr.var "Vgu"))
      (Expr.var "eg_lumen") }

/-- Transported substances of the excretion chain (identifier, name). -/
def substance_info : List (String × String) :=
  [("emp", "empagliflozin"), ("eg", "empagliflozin glucuronide")]

/-- Chain length, fixed at model-build time. -/
def n_chain : Nat := 5

/-- Total volume of the intestinal lumen (value of compartment `Vlumen`). -/
def Vlumen_total : ℚ := 1.2825 * 0.9

/-- Identifier of the k-th chain stage compartment. -/
def stageCompartmentId (k : Nat) : String := "Vintestine_" ++ toString k

/-- Identifier of the k-th chain stage species of substance `sid`. -/
def stageSpeciesId (sid : String) (k : Nat) : String :=
  sid ++ "_intestine_" ++ toString k

/-- The k-th chain stage compartment, volume `1.2825 * 0.9 / n_chain`. -/
def chainCompartment (k : Nat) : Compartment :=
  { sid := stageCompartmentId k
  , value := some (1.2825 * 0.9 / (n_chain : ℚ))
  , isConstant := true }

/-- The k-th chain stage species of substance `sid`. -/
def chainSpecies (sid : String) (k : Nat) : Species :=
  { sid := stageSpeciesId sid k
  , compartment := stageCompartmentId k
  , initialConcentration := 0
  , hasOnlySubstanceUnits := false }

/-- Product of the k-th chain excretion reaction: the next stage species,
or the terminal feces species for the last stage. -/
def chainProduct (sid : String) (k : Nat) : String :=
  if k < n_chain - 1 then stageSpeciesId sid (k + 1) else sid ++ "_feces"

/-- The k-th chain excretion reaction of substance `sid`, with rate
formula `METEXC_k * Vintestine_k * sid_intestine_k`. -/
def chainReaction (sid : String) (k : Nat) : Reaction :=
  { sid := sid.toUpper ++ "EXC_" ++ toString k
  , reactant := stageSpeciesId sid k
  , product := chainProduct sid k
  , compartment := stageCompartmentId k
  , formula := Expr.mul
      (Expr.mul (Expr.var "METEXC_k") (Expr.var (stageCompartmentId k)))
      (Expr.var (stageSpeciesId sid k)) }

/-- All chain stage compartments appended to the model. -/
def chainCompartments : List Compartment :=
  (List.range n_chain).map chainCompartment

/-- All chain stage species appended to the model. -/
def chainSpeciesList : List Species :=
  (List.range n_chain).flatMap fun k =>
    substance_info.map fun p => chainSpecies p.1 k

/-- All chain excretion reactions appended to the model. -/
def chainReactionList : List Reaction :=
  (List.range n_chain).flatMap fun k =>
    substance_info.map fun p => chainReaction p.1 k

/-- The chain excretion reactions of one substance, in stage order. -/
def chainReactionsFor (sid : String) : List Reaction :=
  (List.range n_chain).map (chainReaction sid)

/-! ## Kidney model (`model_kidney.py`)

The kidney rate laws involve a real-exponent Hill term
(`power(emp_ext, RTG_gamma)`), so they are embedded as real-valued
functions; `power` is `Real.rpow`. -/

/-- Species of the kidney model. -/
def kidney_species : List Species :=
  [ { sid := "emp_ext", compartment := "Vext", initialConcentration := 0,
      hasOnlySubstanceUnits := false }
  , { sid := "emp_urine", compartment := "Vurine", initialConcentration := 0,
      hasOnlySubstanceUnits := true }
  , { sid := "eg_ext", compartment := "Vext", initialConcentration := 0,
      hasOnlySubstanceUnits := false }
  , { sid := "eg_urine", compartment := "Vurine", initialConcentration := 0,
      hasOnlySubstanceUnits := true }
  , { sid := "fpg", compartment := "Vext", initialConcentration := 5,
      hasOnlySubstanceUnits := false, boundaryCondition := true }
  , { sid := "glc_urine", compartment := "Vurine", initialConcentration := 0,
      hasOnlySubstanceUnits := true }
  ]

/-- Default value of parameter `f_renal_function` (normal renal function). -/
def f_renal_function_value : ℝ := 1.0

/-- Default value of parameter `EMPEX_k` [1/min]. -/
def EMPEX_k_value : ℝ := 0.003

/-- Default value of parameter `EGEX_k` [1/min]. -/
def EGEX_k_value : ℝ := 0.010

/-- Value of compartment `Vki` [l]. -/
def Vki_value : ℝ := 0.3

/-- Default value of parameter `GFR_healthy` [ml/min]. -/
def GFR_healthy_value : ℝ := 100

/-- Value of conversion factor `cf_ml_per_l` [ml/l]. -/
def cf_ml_per_l_value : ℝ := 1000

/-- Default value of parameter `RTG_base` [mM]. -/
def RTG_base_value : ℝ := 12.5

/-- Default value of parameter `RTG_m_fpg` [-]. -/
def RTG_m_fpg_value : ℝ := 0.5

/-- Default value of parameter `fpg_healthy` [mM]. -/
def fpg_healthy_value : ℝ := 5

/-- Initial concentration of the boundary species `fpg` [mM]. -/
def fpg_initial_value : ℝ := 5

/-- Assignment rule `RTG_fpg = RTG_base + RTG_m_fpg * (fpg - fpg_healthy)`. -/
def RTG_fpg_rule (RTG_base RTG_m_fpg fpg fpg_healthy : ℝ) : ℝ :=
  RTG_base + RTG_m_fpg * (fpg - fpg_healthy)

/-- Assignment rule `RTG_delta = RTG_fpg * RTG_max_inhibition`. -/
def RTG_delta_rule (RTG_fpg RTG_max_inhibition : ℝ) : ℝ :=
  RTG_fpg * RTG_max_inhibition

/-- Assignment rule for the renal threshold glucose:
`RTG = RTG_fpg - RTG_delta * power(emp_ext, RTG_gamma) /
(power(RTG_E50, RTG_gamma) + power(emp_ext, RTG_gamma))`. -/
noncomputable def RTG_rule (RTG_fpg RTG_delta RTG_E50 RTG_gamma emp_ext : ℝ) : ℝ :=
  RTG_fpg - RTG_delta * emp_ext ^ RTG_gamma /
    (RTG_E50 ^ RTG_gamma + emp_ext ^ RTG_gamma)

/-- Assignment rule `GFR = f_renal_function * GFR_healthy`. -/
def GFR_rule (f_renal_function GFR_healthy : ℝ) : ℝ :=
  f_renal_function * GFR_healthy

/-- Rate law of reaction `GLCEX`:
`piecewise(GFR/cf_ml_per_l * (fpg - RTG), fpg > RTG, 0)`. -/
noncomputable def GLCEX_rate (GFR cf_ml_per_l fpg RTG : ℝ) : ℝ :=
  if RTG < fpg then GFR / cf_ml_per_l * (fpg - RTG) else 0

/-- Rate law of reaction `EMPEX`:
`f_renal_function * EMPEX_k * Vki * emp_ext`. -/
def EMPEX_rate (f_renal_function EMPEX_k Vki emp_ext : ℝ) : ℝ :=
  f_renal_function * EMPEX_k * Vki * emp_ext

/-- Rate law of reaction `EGEX`:
`f_renal_function * EGEX_k * Vki * eg_ext`. -/
def EGEX_rate (f_renal_function EGEX_k Vki eg_ext : ℝ) : ℝ :=
  f_renal_function * EGEX_k * Vki * eg_ext

/-! ## Cumulative excretion-tracking species of the composite model

In the composite whole-body model the kidney sub-model carries the
prefix `KI__` and the intestine (gut) sub-model the prefix `GU__`, as
used throughout the experiment code (`KI__glc_urine`, `GU__METEXC_k`).
The cumulative excretion trackers are the amount-only species living in
the urine and feces sink compartments. -/

/-- Composite identifiers of the cumulative urinary tracking species of
the kidney model (amount-only species in compartment `Vurine`). -/
def kidneyUrineTrackers : List String :=
  (kidney_species.filter fun s => s.compartment = "Vurine").map
    fun s => "KI__" ++ s.sid

/-- Composite identifiers of the cumulative fecal tracking species of
the intestine model (amount-only species in compartment `Vfeces`). -/
def intestineFecesTrackers : List String :=
  (intestine_species.filter fun s => s.compartment = "Vfeces").map
    fun s => "GU__" ++ s.sid

/-- All cumulative excretion-tracking species of the composite model. -/
def excretionTrackingSpecies : List String :=
  kidneyUrineTrackers ++ intestineFecesTrackers

/-! ## Dosing-segment sequencer of the Heise2013a study (`heise2013a.py`) -/

/-- One simulation segment: start time, end time [min], number of output
steps, and the parameter/state overrides applied at its start, each as
(identifier, magnitude, unit). -/
structure Timecourse where
  start : ℚ
  timeEnd : ℚ
  steps : Nat
  changes : List (String × ℚ × String)
deriving Repr, DecidableEq

/-- Default parameter changes applied to every simulation
(`EmpagliflozinSimulationExperiment._default_changes`). -/
def default_changes : List (String × ℚ × String) :=
  [ ("ftissue_emp", 0.3832934310804301, "l/min")
  , ("Kp_emp", 0.573747586082099, "dimensionless")
  , ("GU__EMPABS_k", 0.007439770316739214, "1/min")
  , ("GU__METEXC_k", 0.0008998014627372138, "1/min")
  , ("LI__EMP2EG_Vmax", 0.012490394598835162, "mmol/min/l")
  , ("LI__EMP2EG_Km_emp", 0.24667266695912698, "mM")
  , ("LI__EGEX_k", 0.014033858848302178, "1/min")
  , ("LI__EGBIEX_k", 0.00735528424770721, "1/min")
  , ("KI__EMPEX_k", 0.11795401426241267, "1/min")
  , ("KI__EGEX_k", 1.4994487519741735, "1/min")
  , ("KI__RTG_E50", 0.0000017063026384665662, "mM")
  , ("KI__RTG_base", 12.397702595815295, "mM")
  , ("KI__RTG_max_inhibition", 0.6842787312726607, "dimensionless")
  , ("KI__RTG_m_fpg", 0.8981650940449492, "dimensionless")
  ]

/-- Fasting plasma glucose per intervention of Heise2013a [mM]. -/
def heise_fpgs : List (String × ℚ) :=
  [ ("Placebo", 152.1 / 18)
  , ("EMP10", 164.8 / 18)
  , ("EMP25", 166.3 / 18)
  , ("EMP100", 149.4 / 18)
  ]

/-- Body weight per intervention of Heise2013a [kg]. -/
def heise_bodyweights : List (String × ℚ) :=
  [ ("Placebo", 89.3)
  , ("EMP10", 89.6)
  , ("EMP25", 89.6)
  , ("EMP100", 92.4)
  ]

/-- Oral empagliflozin dose per intervention of Heise2013a [mg]. -/
def heise_doses : List (String × ℚ) :=
  [ ("Placebo", 0)
  , ("EMP10", 10)
  , ("EMP25", 25)
  , ("EMP100", 100)
  ]

/-- First segment `tc0` of a Heise2013a simulation: 24 h, 500 steps, the
default changes plus body weight, fasting plasma glucose, the oral dose
and a reset of urinary glucose. -/
def heise_tc0 (intervention : String) (dose : ℚ) : Timecourse :=
  { start := 0
  , timeEnd := 24 * 60
  , steps := 500
  , changes := default_changes ++
      [ ("BW", (heise_bodyweights.lookup intervention).getD 0, "kg")
      , ("[KI__fpg]", (heise_fpgs.lookup intervention).getD 0, "mM")
      , ("PODOSE_emp", dose, "mg")
      , ("KI__glc_urine", 0, "mmole")
      ] }

/-- Replayed daily segment `tc1` of a Heise2013a simulation: 24 h, 500
steps, re-applying the oral dose and resetting urinary glucose. -/
def heise_tc1 (dose : ℚ) : Timecourse :=
  { start := 0
  , timeEnd := 24 * 60
  , steps := 500
  , changes := [("PODOSE_emp", dose, "mg"), ("KI__glc_urine", 0, "mmole")] }

/-- Final segment `tc2` of a Heise2013a simulation: 100 h, 500 steps,
re-applying the oral dose and resetting urinary glucose. -/
def heise_tc2 (dose : ℚ) : Timecourse :=
  { start := 0
  , timeEnd := 100 * 60
  , steps := 500
  , changes := [("PODOSE_emp", dose, "mg"), ("KI__glc_urine", 0, "mmole")] }

/-- Ordered segment list of one Heise2013a simulation:
`[tc0] + [tc1 for _ in range(26)] + [tc2]`. -/
def heise_simulation (intervention : String) (dose : ℚ) : List Timecourse :=
  [heise_tc0 intervention dose] ++ List.replicate 26 (heise_tc1 dose) ++
    [heise_tc2 dose]

/-- All Heise2013a simulations, one per intervention of the dose table
(`Heise2013a.simulations`). -/
def heise_simulations : List (String × List Timecourse) :=
  heise_doses.map fun p => (p.1, heise_simulation p.1 p.2)

/-! ## Fit-mapping metadata and filters (`metadata.py`,
`fit_experiments.py`) -/

/-- Tissue of a fit mapping. -/
inductive Tissue where
  | PLASMA | SERUM | URINE | FECES
deriving Repr, DecidableEq

/-- Administration route of a fit mapping. -/
inductive Route where
  | PO | IV
deriving Repr, DecidableEq

/-- Dosing scheme of a fit mapping. -/
inductive Dosing where
  | SINGLE | MULTIPLE | CONSTANT_INFUSION
deriving Repr, DecidableEq

/-- Application form of a fit mapping. -/
inductive ApplicationForm where
  | TABLET | SOLUTION | CAPSULE | MIXED | NR
deriving Repr, DecidableEq

/-- Health state of the study population. -/
inductive Health where
  | HEALTHY | T2DM | HYPERTENSION | CIRRHOSIS | RENAL_IMPAIRMENT
  | HEPATIC_IMPAIRMENT | CHF | T2DM_RENAL_IMPAIRMENT | T2DM_HEPATIC_IMPAIRMENT
deriving Repr, DecidableEq

/-- Fasting state of the study population. -/
inductive Fasting where
  | NR | FASTED | FED
deriving Repr, DecidableEq

/-- Co-administered drug of a fit mapping. -/
inductive Coadministration where
  | NONE | CYCLOSPORINE | EVOGLIPTIN | HCTZ | LINAGLIPTIN | LOBEGLITAZONE
  | METFORMIN | PROBENECID | RIFAMPICIN | SITAGLIPTIN | TORASEMIDE | WARFARIN
deriving Repr, DecidableEq

/-- Metadata attached to every fit mapping
(`EmpagliflozinMappingMetaData`); `coadministration` defaults to `NONE`
and `outlier` defaults to `false` as in the dataclass. -/
structure EmpagliflozinMappingMetaData where
  tissue : Tissue
  route : Route
  application_form : ApplicationForm
  dosing : Dosing
  health : Health
  fasting : Fasting
  coadministration : Coadministration := Coadministration.NONE
  outlier : Bool := false
deriving Repr, DecidableEq

/-- Predicate `filter_control`: keep control experiments/mappings. -/
def filter_control (fit_mapping_key : String)
    (metadata : EmpagliflozinMappingMetaData) : Bool :=
  if metadata.route ∉ [Route.PO, Route.IV] then false
  else if metadata.coadministration ≠ Coadministration.NONE then false
  else if metadata.health ∉ [Health.HEALTHY, Health.T2DM, Health.HYPERTENSION]
    then false
  else if metadata.fasting ∉ [Fasting.FASTED, Fasting.NR] then false
  else if metadata.outlier = true then false
  else true

/-! ## Pharmacokinetic parameter extractor (`empagliflozin_pk.py`) -/

/-- The data of a simulation result (`XResult`) needed by the extractor:
the list of scanned dimensions (`_redop_dims()`) and the dose vector
`xres["PODOSE_emp"].values[0]`. -/
structure XResult where
  scanDims : List String
  doseVec : List ℚ
deriving Repr, DecidableEq

/-- One output row of the extractor: the scan/dose index, the dose, and
the substance tag attached via `pk_dict["substance"] = substance`. -/
structure PKRow where
  scanIndex : Nat
  dose : ℚ
  substance : String
deriving Repr, DecidableEq

/-- Substance names tagged onto the output rows. -/
def pk_substances : List String :=
  ["empagliflozin", "empagliflozin-glucuronide", "total empagliflozin"]

/-- Modelled from the spec: `TimecoursePK` lives in the external
`pkdb_analysis` package (not part of this repository); per the spec and
the docstring of `calculate_empagliflozin_pk` ("Only works for
1D-scans") it computes the PK metrics of a single 1-D concentration
time series, i.e. it is defined only when no scanned dimension remains
after selecting the scan index (`remainingDims = []`), and fails
otherwise. -/
def timecoursePK (remainingDims : List String) (scanIndex : Nat)
    (dose : ℚ) (substance : String) : Option PKRow :=
  if remainingDims.isEmpty then
    some { scanIndex := scanIndex, dose := dose, substance := substance }
  else none

/-- Inner loop of the extractor: one `TimecoursePK` row per substance
for a fixed scan index, failing as soon as one construction fails. -/
def pkRowsForDose (remainingDims : List String) (scanIndex : Nat)
    (dose : ℚ) : List String → Option (List PKRow)
  | [] => some []
  | s :: tl => do
      let row ← timecoursePK remainingDims scanIndex dose s
      let rows ← pkRowsForDose remainingDims scanIndex dose tl
      pure (row :: rows)

/-- Outer loop of the extractor: iterate over the enumerated dose
vector, collecting the per-substance rows. -/
def pkRows (remainingDims : List String) :
    List (Nat × ℚ) → Option (List PKRow)
  | [] => some []
  | (k, d) :: tl => do
      let rows1 ← pkRowsForDose remainingDims k d pk_substances
      let rows2 ← pkRows remainingDims tl
      pure (rows1 ++ rows2)

/-- The extractor `calculate_empagliflozin_pk`: take the first scanned
dimension (`xres._redop_dims()[0]`, an index error when there is none),
then for each `(k_dose, dose)` of the enumerated dose vector and each of
the three substances build a `TimecoursePK` over the series selected at
that scan index (leaving the remaining scanned dimensions in place) and
collect one substance-tagged row per construction. -/
def calculate_empagliflozin_pk (xres : XResult) : Option (List PKRow) :=
  match xres.scanDims with
  | [] => none
  | _ :: rest => pkRows rest xres.doseVec.enum

/-- Environment used to evaluate the intestine rate laws at one concrete
state (consistent with the `absorption` assignment rule). -/
def lumen_env : String → ℚ := fun s =>
  if s = "EMPABS_k" then 1/100
  else if s = "Vgu" then 2
  else if s = "emp_lumen" then 50
  else if s = "F_emp_abs" then 13/20
  else if s = "absorption" then 1
  else 0

/-! ## Theorems -/

/-- Claim C8: the absorption reaction rate `EMPABS = F_emp_abs * absorption`
plus the chain-entry excretion rate `EMPEXC = (1 - F_emp_abs) * absorption`
equals the total lumen outflux `absorption = EMPABS_k * Vgu * emp_lumen`,
for every state and any value of `F_emp_abs`. -/
theorem empabs_empexc_partition (env : String → ℚ)
    (habs : env "absorption" = Expr.eval env absorption_rule) :
    Expr.eval env EMPABS.formula + Expr.eval env EMPEXC.formula =
      env "EMPABS_k" * env "Vgu" * env "emp_lumen" := by
  simp only [EMPABS, EMPEXC, absorption_rule, Expr.eval] at habs ⊢
  rw [habs]
  ring

/-- Witness for C8 at a concrete state. -/
theorem empabs_empexc_partition_witness :
    Expr.eval lumen_env EMPABS.formula + Expr.eval lumen_env EMPEXC.formula =
      lumen_env "EMPABS_k" * lumen_env "Vgu" * lumen_env "emp_lumen" :=
  empabs_empexc_partition lumen_env
    (by simp [lumen_env, absorption_rule, Expr.eval]; norm_num)

/-- Claim C3: at drug concentration zero the renal threshold glucose RTG
equals `RTG_fpg` exactly, for all positive values of `RTG_E50`,
`RTG_gamma` and `RTG_delta`. -/
theorem rtg_at_zero_drug (RTG_fpg RTG_delta RTG_E50 RTG_gamma : ℝ)
    (hE : 0 < RTG_E50) (hg : 0 < RTG_gamma) (hd : 0 < RTG_delta) :
    RTG_rule RTG_fpg RTG_delta RTG_E50 RTG_gamma 0 = RTG_fpg := by
  unfold RTG_rule
  rw [Real.zero_rpow hg.ne']
  simp

/-- Witness for C3 at concrete parameter values. -/
theorem rtg_at_zero_drug_witness :
    RTG_rule 12.5 9.375 1 2 0 = 12.5 :=
  rtg_at_zero_drug 12.5 9.375 1 2 (by norm_num) (by norm_num) (by norm_num)

/-- Claim C9: the EMPEX and EGEX rate laws are proportional to
`f_renal_function`, GLCEX is proportional to
`GFR = f_renal_function * GFR_healthy`, and at `f_renal_function = 0`
all three urinary excretion rates are identically zero. -/
theorem renal_excretion_linear (f k V c k2 V2 c2 GFRh cf fpg rtg : ℝ) :
    EMPEX_rate f k V c = f * EMPEX_rate 1 k V c
  ∧ EGEX_rate f k2 V2 c2 = f * EGEX_rate 1 k2 V2 c2
  ∧ GLCEX_rate (GFR_rule f GFRh) cf fpg rtg =
      f * GLCEX_rate (GFR_rule 1 GFRh) cf fpg rtg
  ∧ EMPEX_rate 0 k V c = 0
  ∧ EGEX_rate 0 k2 V2 c2 = 0
  ∧ GLCEX_rate (GFR_rule 0 GFRh) cf fpg rtg = 0 := by
  refine ⟨by unfold EMPEX_rate; ring, by unfold EGEX_rate; ring, ?_,
    by unfold EMPEX_rate; ring, by unfold EGEX_rate; ring, ?_⟩
  · unfold GLCEX_rate GFR_rule
    split <;> ring
  · unfold GLCEX_rate GFR_rule
    split <;> ring

/-- Counterexample to claim C5 as stated: the stage compartments of the
built intestine model have volume `1.2825 * 0.9 / 5 = 0.23085` liter,
not `0.2` liter. -/
theorem chain_stage_volume_not_point_two :
    (chainCompartment 0).value ≠ some ((1 : ℚ) / 5) := by
  norm_num [chainCompartment, n_chain]

/-- Claim C5 (amended): the excretion chain has exactly `N = 5` stages,
each stage compartment has volume `1.2825 * 0.9 / 5 = 0.23085` liter,
the chain rate constant `METEXC_k` is `0.001` per minute, and the molar
mass `Mr_emp` is `450.909` g/mol. -/
theorem chain_concrete_values :
    n_chain = 5
  ∧ ((List.range n_chain).map fun k => (chainCompartment k).value) =
      List.replicate 5 (some ((4617 : ℚ) / 20000))
  ∧ intestine_parameters.lookup "METEXC_k" = some ((1 : ℚ) / 1000)
  ∧ intestine_parameters.lookup "Mr_emp" = some ((450909 : ℚ) / 1000) := by
  refine ⟨rfl, ?_, ?_, ?_⟩
  · norm_num [n_chain, List.range_succ, chainCompartment, List.replicate]
  · simp [intestine_parameters, List.lookup]
    norm_num
  · simp [intestine_parameters, List.lookup]
    norm_num

/-- The GLCEX rate law equals a scaled positive-part function, the form
used to establish continuity at the threshold. -/
lemma GLCEX_rate_eq_max (GFR cf rtg : ℝ) :
    (fun fpg => GLCEX_rate GFR cf fpg rtg) =
      fun fpg => GFR / cf * max (fpg - rtg) 0 := by
  funext fpg
  unfold GLCEX_rate
  rcases lt_or_le rtg fpg with h | h
  · rw [if_pos h, max_eq_left (by linarith)]
  · rw [if_neg (not_lt.mpr h), max_eq_right (by linarith), mul_zero]

/-- Claim C2: the GLCEX rate equals `GFR/cf_ml_per_l * (fpg - RTG)` above
the threshold, is zero at and below the threshold, is continuous at the
threshold, and is non-negative for non-negative plasma glucose and RTG
(at the model's GFR and conversion-factor values). -/
theorem glcex_threshold (fpg rtg : ℝ) :
    (rtg < fpg →
      GLCEX_rate (GFR_rule f_renal_function_value GFR_healthy_value)
          cf_ml_per_l_value fpg rtg =
        GFR_rule f_renal_function_value GFR_healthy_value / cf_ml_per_l_value *
          (fpg - rtg))
  ∧ (fpg ≤ rtg →
      GLCEX_rate (GFR_rule f_renal_function_value GFR_healthy_value)
        cf_ml_per_l_value fpg rtg = 0)
  ∧ GLCEX_rate (GFR_rule f_renal_function_value GFR_healthy_value)
      cf_ml_per_l_value rtg rtg = 0
  ∧ ContinuousAt (fun g =>
      GLCEX_rate (GFR_rule f_renal_function_value GFR_healthy_value)
        cf_ml_per_l_value g rtg) rtg
  ∧ (0 ≤ fpg → 0 ≤ rtg →
      0 ≤ GLCEX_rate (GFR_rule f_renal_function_value GFR_healthy_value)
        cf_ml_per_l_value fpg rtg) := by
  refine ⟨fun h => by unfold GLCEX_rate; rw [if_pos h],
    fun h => by unfold GLCEX_rate; rw [if_neg (not_lt.mpr h)],
    by unfold GLCEX_rate; rw [if_neg (lt_irrefl rtg)], ?_, ?_⟩
  · rw [GLCEX_rate_eq_max]
    exact (continuous_const.mul
      ((continuous_id.sub continuous_const).max continuous_const)).continuousAt
  · intro _ _
    unfold GLCEX_rate GFR_rule f_renal_function_value GFR_healthy_value
      cf_ml_per_l_value
    split
    · nlinarith
    · exact le_refl 0

/-- Witness for C2 above and below the threshold. -/
theorem glcex_threshold_witness :
    GLCEX_rate (GFR_rule f_renal_function_value GFR_healthy_value)
        cf_ml_per_l_value 15 14 =
      GFR_rule f_renal_function_value GFR_healthy_value / cf_ml_per_l_value *
        (15 - 14)
  ∧ GLCEX_rate (GFR_rule f_renal_function_value GFR_healthy_value)
      cf_ml_per_l_value 10 14 = 0
  ∧ 0 ≤ GLCEX_rate (GFR_rule f_renal_function_value GFR_healthy_value)
      cf_ml_per_l_value 15 14 :=
  ⟨(glcex_threshold 15 14).1 (by norm_num),
   (glcex_threshold 10 14).2.1 (by norm_num),
   (glcex_threshold 15 14).2.2.2.2 (by norm_num) (by norm_num)⟩

/-- The Hill inhibition term is non-negative when the EC50 is positive. -/
lemma hill_nonneg (E50 γ c : ℝ) (hE : 0 < E50) (hc : 0 ≤ c) :
    0 ≤ c ^ γ / (E50 ^ γ + c ^ γ) := by
  have he : 0 < E50 ^ γ := Real.rpow_pos_of_pos hE γ
  have h1 : 0 ≤ c ^ γ := Real.rpow_nonneg hc γ
  exact div_nonneg h1 (by linarith)

/-- The Hill inhibition term is at most one when the EC50 is positive. -/
lemma hill_le_one (E50 γ c : ℝ) (hE : 0 < E50) (hc : 0 ≤ c) :
    c ^ γ / (E50 ^ γ + c ^ γ) ≤ 1 := by
  have he : 0 < E50 ^ γ := Real.rpow_pos_of_pos hE γ
  have h1 : 0 ≤ c ^ γ := Real.rpow_nonneg hc γ
  rw [div_le_one (by linarith)]
  linarith

/-- The Hill inhibition term is monotone in the drug concentration. -/
lemma hill_mono (E50 γ c1 c2 : ℝ) (hE : 0 < E50) (hγ : 0 < γ)
    (hc1 : 0 ≤ c1) (h12 : c1 ≤ c2) :
    c1 ^ γ / (E50 ^ γ + c1 ^ γ) ≤ c2 ^ γ / (E50 ^ γ + c2 ^ γ) := by
  have he : 0 < E50 ^ γ := Real.rpow_pos_of_pos hE γ
  have h1 : 0 ≤ c1 ^ γ := Real.rpow_nonneg hc1 γ
  have h2 : c1 ^ γ ≤ c2 ^ γ := Real.rpow_le_rpow hc1 h12 hγ.le
  rw [div_le_div_iff₀ (by linarith) (by linarith)]
  nlinarith

/-- The value of `RTG_fpg` at the model's parameter defaults
(`RTG_base = 12.5`, `RTG_m_fpg = 0.5`, `fpg = 5`, `fpg_healthy = 5`). -/
noncomputable def RTG_fpg_default : ℝ :=
  RTG_fpg_rule RTG_base_value RTG_m_fpg_value fpg_initial_value
    fpg_healthy_value

lemma RTG_fpg_default_eq : RTG_fpg_default = 12.5 := by
  unfold RTG_fpg_default RTG_fpg_rule RTG_base_value RTG_m_fpg_value
    fpg_initial_value fpg_healthy_value
  norm_num

/-- The RTG rule written with the Hill term factored out. -/
lemma RTG_rule_eq (fpgv δ E50 γ c : ℝ) :
    RTG_rule fpgv δ E50 γ c = fpgv - δ * (c ^ γ / (E50 ^ γ + c ^ γ)) := by
  unfold RTG_rule
  rw [mul_div_assoc]

/-- Claim C10: for every drug concentration `emp_ext ≥ 0`, with
`RTG_E50 > 0`, `RTG_gamma > 0` and `RTG_max_inhibition ∈ [0, 1]`, the
computed renal threshold glucose satisfies
`RTG_fpg * (1 - RTG_max_inhibition) ≤ RTG ≤ RTG_fpg`, the Hill
inhibition term lies in `[0, 1]`, and RTG is non-increasing in the drug
concentration. -/
theorem rtg_bounds_and_monotone (RTG_E50 RTG_gamma m c : ℝ)
    (hE : 0 < RTG_E50) (hg : 0 < RTG_gamma) (hm0 : 0 ≤ m) (hm1 : m ≤ 1)
    (hc : 0 ≤ c) :
    (0 ≤ c ^ RTG_gamma / (RTG_E50 ^ RTG_gamma + c ^ RTG_gamma)
      ∧ c ^ RTG_gamma / (RTG_E50 ^ RTG_gamma + c ^ RTG_gamma) ≤ 1)
  ∧ RTG_fpg_default * (1 - m) ≤
      RTG_rule RTG_fpg_default (RTG_delta_rule RTG_fpg_default m)
        RTG_E50 RTG_gamma c
  ∧ RTG_rule RTG_fpg_default (RTG_delta_rule RTG_fpg_default m)
      RTG_E50 RTG_gamma c ≤ RTG_fpg_default
  ∧ ∀ c2, c ≤ c2 →
      RTG_rule RTG_fpg_default (RTG_delta_rule RTG_fpg_default m)
          RTG_E50 RTG_gamma c2 ≤
        RTG_rule RTG_fpg_default (RTG_delta_rule RTG_fpg_default m)
          RTG_E50 RTG_gamma c := by
  have hfpg : RTG_fpg_default = 12.5 := RTG_fpg_default_eq
  have h0 := hill_nonneg RTG_E50 RTG_gamma c hE hc
  have h1 := hill_le_one RTG_E50 RTG_gamma c hE hc
  have hδ : 0 ≤ RTG_delta_rule RTG_fpg_default m := by
    unfold RTG_delta_rule
    rw [hfpg]
    nlinarith
  refine ⟨⟨h0, h1⟩, ?_, ?_, ?_⟩
  · rw [RTG_rule_eq]
    unfold RTG_delta_rule
    rw [hfpg]
    nlinarith
  · rw [RTG_rule_eq]
    nlinarith
  · intro c2 h12
    rw [RTG_rule_eq, RTG_rule_eq]
    have := hill_mono RTG_E50 RTG_gamma c c2 hE hg hc h12
    nlinarith

/-- Witness for C10 at concrete parameter values. -/
theorem rtg_bounds_and_monotone_witness :
    RTG_rule RTG_fpg_default (RTG_delta_rule RTG_fpg_default (1/2)) 1 1 4 ≤
      RTG_fpg_default
  ∧ RTG_fpg_default * (1 - 1/2) ≤
      RTG_rule RTG_fpg_default (RTG_delta_rule RTG_fpg_default (1/2)) 1 1 4 :=
  ⟨(rtg_bounds_and_monotone 1 1 (1/2) 4 (by norm_num) (by norm_num)
      (by norm_num) (by norm_num) (by norm_num)).2.2.1,
   (rtg_bounds_and_monotone 1 1 (1/2) 4 (by norm_num) (by norm_num)
      (by norm_num) (by norm_num) (by norm_num)).2.1⟩

/-- A fit-mapping metadata record flagged as outlier (used as witness
input for the filter theorem). -/
def outlier_metadata : EmpagliflozinMappingMetaData :=
  { tissue := Tissue.PLASMA
  , route := Route.PO
  , application_form := ApplicationForm.TABLET
  , dosing := Dosing.SINGLE
  , health := Health.HEALTHY
  , fasting := Fasting.FASTED
  , outlier := true }

/-- Claim C7: `filter_control` returns true exactly when route is PO or
IV, no coadministration, health in the control set, fasting FASTED or
NR, and the outlier flag is false; an outlier-flagged mapping is
excluded by the filter (no error is raised), and the outlier flag
defaults to false. -/
theorem filter_control_spec :
    (∀ (key : String) (m : EmpagliflozinMappingMetaData),
      filter_control key m = true ↔
        (m.route ∈ [Route.PO, Route.IV]
          ∧ m.coadministration = Coadministration.NONE
          ∧ m.health ∈ [Health.HEALTHY, Health.T2DM, Health.HYPERTENSION]
          ∧ m.fasting ∈ [Fasting.FASTED, Fasting.NR]
          ∧ m.outlier = false))
  ∧ (∀ (key : String) (m : EmpagliflozinMappingMetaData),
      m.outlier = true → filter_control key m = false)
  ∧ (∀ t r a d h f,
      ({ tissue := t, route := r, application_form := a, dosing := d,
         health := h, fasting := f } : EmpagliflozinMappingMetaData).outlier
        = false) := by
  refine ⟨fun key m => ?_, fun key m hout => ?_, fun t r a d h f => rfl⟩
  · unfold filter_control
    split_ifs with h1 h2 h3 h4 h5 <;> simp_all
  · unfold filter_control
    split_ifs <;> simp_all

/-- Witness for C7: the outlier-flagged mapping is filtered out. -/
theorem filter_control_spec_witness :
    filter_control "fm_empagliflozin_EMP10" outlier_metadata = false :=
  filter_control_spec.2.1 "fm_empagliflozin_EMP10" outlier_metadata rfl

/-- Environment used to evaluate the chain rate laws at one concrete
state (stage volumes bound to the model's stage-compartment value). -/
def chain_env : String → ℚ := fun s =>
  if s = "METEXC_k" then 1/1000
  else if s = stageCompartmentId 3 then Vlumen_total / (n_chain : ℚ)
  else if s = stageSpeciesId "emp" 3 then 7
  else 0

/-- Claim C1: the compartment-chain builder produces, for the chain
length `n_chain` fixed at model-build time and each transported
substance, `n_chain` stage compartments of volume
`total lumen volume / n_chain` and `n_chain` excretion reactions whose
rate is `METEXC_k * stage volume * stage species`, where stage `k`'s
outflow species is stage `k+1`'s inflow species for `k < n_chain - 1`
and the last stage's outflow is directed to the terminal feces sink
species. -/
theorem chain_builder_correct (sid : String)
    (hs : sid ∈ substance_info.map Prod.fst) (k : Nat) (hk : k < n_chain) :
    chainCompartments.length = n_chain
  ∧ (chainReactionsFor sid).length = n_chain
  ∧ chainCompartment k ∈ chainCompartments
  ∧ (chainCompartment k).value = some (Vlumen_total / (n_chain : ℚ))
  ∧ chainReaction sid k ∈ chainReactionsFor sid
  ∧ (chainReaction sid k).reactant = stageSpeciesId sid k
  ∧ (∀ env : String → ℚ,
      env (stageCompartmentId k) = Vlumen_total / (n_chain : ℚ) →
        Expr.eval env (chainReaction sid k).formula =
          env "METEXC_k" * (Vlumen_total / (n_chain : ℚ)) *
            env (stageSpeciesId sid k))
  ∧ (k < n_chain - 1 →
      (chainReaction sid k).product = (chainReaction sid (k + 1)).reactant)
  ∧ (k = n_chain - 1 → (chainReaction sid k).product = sid ++ "_feces")
  ∧ (∃ sp ∈ intestine_species, sp.sid = sid ++ "_feces"
      ∧ sp.compartment = "Vfeces" ∧ sp.hasOnlySubstanceUnits = true) := by
  refine ⟨by simp [chainCompartments], by simp [chainReactionsFor],
    List.mem_map_of_mem chainCompartment (List.mem_range.mpr hk), rfl,
    List.mem_map_of_mem (chainReaction sid) (List.mem_range.mpr hk), rfl,
    ?_, ?_, ?_, ?_⟩
  · intro env henv
    simp only [chainReaction, Expr.eval]
    rw [henv]
  · intro h
    simp [chainReaction, chainProduct, if_pos h]
  · intro h
    subst h
    simp [chainReaction, chainProduct, n_chain]
  · simp only [substance_info, List.map_cons, List.map_nil,
      List.mem_cons, List.mem_singleton, List.not_mem_nil, or_false] at hs
    rcases hs with h | h
    · subst h
      exact ⟨Species.mk "emp_feces" "Vfeces" 0 true false,
        by simp [intestine_species], rfl, rfl, rfl⟩
    · subst h
      exact ⟨Species.mk "eg_feces" "Vfeces" 0 true false,
        by simp [intestine_species], rfl, rfl, rfl⟩

/-- Witness for C1 at substance `emp`, stage 3, and a concrete state. -/
theorem chain_builder_correct_witness :
    (chainReaction "emp" 3).product = (chainReaction "emp" 4).reactant
  ∧ Expr.eval chain_env (chainReaction "emp" 3).formula =
      chain_env "METEXC_k" * (Vlumen_total / (n_chain : ℚ)) *
        chain_env (stageSpeciesId "emp" 3) :=
  ⟨(chain_builder_correct "emp" (by simp [substance_info]) 3
      (by norm_num [n_chain])).2.2.2.2.2.2.2.1 (by norm_num [n_chain]),
   (chain_builder_correct "emp" (by simp [substance_info]) 3
      (by norm_num [n_chain])).2.2.2.2.2.2.1 chain_env
      (by unfold chain_env; rw [if_neg (by decide), if_pos rfl])⟩

/-- Counterexample to claim C4 as stated: the replayed daily segment of
the Heise2013a EMP10 simulation overrides only `PODOSE_emp` and
`KI__glc_urine`; the cumulative urinary tracking species `KI__emp_urine`
of the composite model is not zeroed, so per-dose urinary drug amounts
do carry over. -/
theorem heise_replay_missing_tracker_reset :
    "KI__emp_urine" ∈ excretionTrackingSpecies
  ∧ (heise_simulation "EMP10" 10)[1]? = some (heise_tc1 10)
  ∧ ((heise_tc1 10).changes.map fun c => c.1) =
      ["PODOSE_emp", "KI__glc_urine"]
  ∧ "KI__emp_urine" ∉ ((heise_tc1 10).changes.map fun c => c.1) := by
  refine ⟨by simp [excretionTrackingSpecies, kidneyUrineTrackers,
      kidney_species], rfl, rfl, by simp [heise_tc1]⟩

/-- Claim C4 (amended): every Heise2013a simulation is an ordered list
replaying an identical 24-hour segment 26 times after the initial
24-hour segment, each replayed segment re-applying `PODOSE_emp` and
zeroing the cumulative urinary glucose species `KI__glc_urine` (the
other cumulative excretion-tracking species are not reset), followed by
exactly one final 100-hour segment. -/
theorem heise_simulations_structure (intervention : String) (dose : ℚ) :
    heise_simulations =
      heise_doses.map (fun p => (p.1, heise_simulation p.1 p.2))
  ∧ heise_simulation intervention dose =
      [heise_tc0 intervention dose] ++ List.replicate 26 (heise_tc1 dose) ++
        [heise_tc2 dose]
  ∧ (heise_tc1 dose).changes =
      [("PODOSE_emp", dose, "mg"), ("KI__glc_urine", 0, "mmole")]
  ∧ (heise_tc1 dose).timeEnd = 24 * 60
  ∧ (heise_tc1 dose).steps = 500
  ∧ (heise_simulation intervention dose).length = 28
  ∧ (heise_simulation intervention dose).getLast? = some (heise_tc2 dose)
  ∧ (heise_tc2 dose).timeEnd = 100 * 60
  ∧ (heise_tc2 dose).steps = 500
  ∧ ((heise_simulation intervention dose).map fun tc => tc.timeEnd) =
      List.replicate 27 (24 * 60) ++ [100 * 60] := by
  refine ⟨rfl, rfl, rfl, rfl, rfl, by simp [heise_simulation], ?_, rfl, rfl, ?_⟩
  · simp [heise_simulation, List.getLast?_append]
  · simp [heise_simulation, heise_tc0, heise_tc1, heise_tc2,
      List.map_replicate, List.replicate_succ]

/-- With no scanned dimension remaining, the inner extractor loop
produces one row per substance. -/
lemma pkRowsForDose_nil (k : Nat) (d : ℚ) (l : List String) :
    pkRowsForDose [] k d l =
      some (l.map fun s => ⟨k, d, s⟩) := by
  induction l with
  | nil => rfl
  | cons s tl ih => simp [pkRowsForDose, timecoursePK, ih]

/-- With no scanned dimension remaining, the outer extractor loop
produces one row per (scan index, substance). -/
lemma pkRows_nil (l : List (Nat × ℚ)) :
    pkRows [] l =
      some (l.flatMap fun kd => pk_substances.map fun s => ⟨kd.1, kd.2, s⟩) := by
  induction l with
  | nil => rfl
  | cons hd tl ih =>
    obtain ⟨k, d⟩ := hd
    simp [pkRows, pkRowsForDose_nil, ih]

/-- With a scanned dimension remaining after selection, the inner
extractor loop fails on any non-empty substance list. -/
lemma pkRowsForDose_cons (dim : String) (rest : List String) (k : Nat)
    (d : ℚ) (s : String) (tl : List String) :
    pkRowsForDose (dim :: rest) k d (s :: tl) = none := by
  simp [pkRowsForDose, timecoursePK]

/-- With a scanned dimension remaining after selection, the outer
extractor loop fails on any non-empty dose vector. -/
lemma pkRows_cons (dim : String) (rest : List String) (k : Nat) (d : ℚ)
    (tl : List (Nat × ℚ)) :
    pkRows (dim :: rest) ((k, d) :: tl) = none := by
  simp [pkRows, pk_substances, pkRowsForDose_cons]

/-- The extractor output has three rows per scan point. -/
lemma pk_rows_length (l : List (Nat × ℚ)) :
    (l.flatMap fun kd =>
      pk_substances.map fun s => (⟨kd.1, kd.2, s⟩ : PKRow)).length =
      3 * l.length := by
  induction l with
  | nil => rfl
  | cons hd tl ih =>
    rw [List.flatMap_cons, List.length_append, ih, List.length_map,
      List.length_cons]
    rw [show pk_substances.length = 3 from rfl]
    omega

/-- Claim C6: under the precondition of exactly one scanned dimension,
`calculate_empagliflozin_pk` returns one substance-tagged row per
(scan index, substance) for the three substances empagliflozin,
empagliflozin-glucuronide and total empagliflozin; with more than one
simultaneously scanned dimension (and at least one scan point) it
fails. -/
theorem calculate_pk_rows (xres : XResult) :
    (xres.scanDims.length = 1 →
      calculate_empagliflozin_pk xres =
        some (xres.doseVec.enum.flatMap fun kd =>
          pk_substances.map fun s => ⟨kd.1, kd.2, s⟩)
      ∧ ∀ rows, calculate_empagliflozin_pk xres = some rows →
          rows.length = 3 * xres.doseVec.length)
  ∧ (1 < xres.scanDims.length → xres.doseVec ≠ [] →
      calculate_empagliflozin_pk xres = none) := by
  constructor
  · intro h1
    obtain ⟨d, hd⟩ : ∃ d, xres.scanDims = [d] := by
      match hsc : xres.scanDims with
      | [] => rw [hsc] at h1; simp at h1
      | [d] => exact ⟨d, rfl⟩
      | d1 :: d2 :: tl => rw [hsc] at h1; simp at h1
    have hc : calculate_empagliflozin_pk xres =
        some (xres.doseVec.enum.flatMap fun kd =>
          pk_substances.map fun s => ⟨kd.1, kd.2, s⟩) := by
      unfold calculate_empagliflozin_pk
      rw [hd]
      exact pkRows_nil _
    refine ⟨hc, fun rows hrows => ?_⟩
    rw [hc] at hrows
    have := Option.some.inj hrows
    rw [← this, pk_rows_length, List.enum_length]
  · intro h1 h2
    obtain ⟨d1, d2, dtl, hsc⟩ : ∃ d1 d2 dtl, xres.scanDims = d1 :: d2 :: dtl := by
      match hsc : xres.scanDims with
      | [] => rw [hsc] at h1; simp at h1
      | [d] => rw [hsc] at h1; simp at h1
      | a :: b :: t => exact ⟨a, b, t, rfl⟩
    obtain ⟨v, vtl, hdv⟩ : ∃ v vtl, xres.doseVec = v :: vtl := by
      match hdv : xres.doseVec with
      | [] => exact absurd hdv h2
      | v :: vtl => exact ⟨v, vtl, rfl⟩
    unfold calculate_empagliflozin_pk
    rw [hsc, hdv]
    show pkRows (d2 :: dtl) ((v :: vtl).enum) = none
    rw [show (v :: vtl).enum = (0, v) :: vtl.enumFrom 1 from rfl]
    exact pkRows_cons d2 dtl 0 v _

/-- Concrete one-dimensional scan result used as witness input. -/
def xres_1d : XResult := { scanDims := ["dim_dose"], doseVec := [10, 25] }

/-- Concrete two-dimensional scan result used as witness input. -/
def xres_2d : XResult :=
  { scanDims := ["dim_dose", "dim_bw"], doseVec := [10] }

/-- Witness for C6 on concrete one- and two-dimensional scan results. -/
theorem calculate_pk_rows_witness :
    calculate_empagliflozin_pk xres_1d =
      some ((([(0, (10 : ℚ)), (1, 25)] : List (Nat × ℚ)).flatMap fun kd =>
        pk_substances.map fun s => ⟨kd.1, kd.2, s⟩))
  ∧ calculate_empagliflozin_pk xres_2d = none :=
  ⟨((calculate_pk_rows xres_1d).1 rfl).1,
   (calculate_pk_rows xres_2d).2 (by simp [xres_2d]) (by simp [xres_2d])⟩

end Empagliflozin
